import Mathlib

/-!
# BSort PWA: offline cache worker and install-prompt controller

A shallow embedding of `sorting/static/sorting/sw.js` (the service worker) and
`sorting/static/sorting/js/pwa-install.js` (the install-prompt controller and
the connectivity listeners), followed by theorems about them.

Platform objects the scripts only call (the Cache API, `fetch`, the DOM) are
modelled as explicit state: cache storage is a list of named partitions, each a
list of request/response pairs, written by `cache.put` for GET requests only; the
network is a function from a request to a response or to a failure; the page is
a sequence of elements.
-/

namespace BSort

/-! ## Service worker: constants -/

/-- The dynamic partition name, `CACHE_NAME` of sw.js. -/
def CACHE_NAME : String := "bsort-v1"

/-- The static partition name, `STATIC_CACHE_NAME` of sw.js. -/
def STATIC_CACHE_NAME : String := "bsort-static-v1"

/-- The static manifest, `STATIC_FILES` of sw.js, in source order. -/
def STATIC_FILES : List String :=
  [ "/",
    "/static/sorting/css/styles.css",
    "/static/sorting/manifest.json",
    "/static/sorting/icons/icon-192x192.png",
    "/static/sorting/icons/icon-512x512.png",
    "https://cdn.jsdelivr.net/npm/bootstrap@5.3.0-alpha1/dist/css/bootstrap.min.css",
    "https://cdnjs.cloudflare.com/ajax/libs/font-awesome/6.5.1/css/all.min.css",
    "https://fonts.googleapis.com/css2?family=Inter:wght@300;400;500;600;700;800&display=swap",
    "https://code.jquery.com/jquery-3.6.4.min.js",
    "https://cdn.jsdelivr.net/npm/bootstrap@5.3.0-alpha1/dist/js/bootstrap.bundle.min.js" ]

/-- The API path prefixes, `API_CACHE_PATTERNS` of sw.js. -/
def API_CACHE_PATTERNS : List String := ["/sorting/", "/admin/"]

/-! ## Service worker: requests, responses, cache storage -/

/-- A parsed URL, the result of `new URL(request.url)`: the fields the worker reads. -/
structure URL where
  origin : String
  pathname : String
  search : String
deriving DecidableEq, Repr

/-- The serialised URL (`request.url`): origin, then path, then query. -/
def URL.href (u : URL) : String := u.origin ++ u.pathname ++ u.search

/-- An intercepted request: the fields the worker reads. -/
structure Request where
  url : URL
  method : String
  destination : String
deriving DecidableEq, Repr

/-- A response: its status and its body. -/
structure Response where
  status : Nat
  body : String
deriving DecidableEq, Repr

/-- The string method `startsWith` of JavaScript. -/
def startsWith (s pattern : String) : Bool := pattern.toList.isPrefixOf s.toList

/-- The array method `includes` of JavaScript, on strings. -/
def includes (xs : List String) (s : String) : Bool := xs.contains s

/-- One cache partition: stored request/response pairs, oldest first. -/
abbrev Cache := List (Request × Response)

/-- The cache storage of the origin: named partitions in creation order. -/
abbrev CacheStorage := List (String × Cache)

/-- Request identity as a cache key: same URL and same method; the destination
plays no part. Entries are stored by `cachePut` for GET requests only, so a
request of another method matches none of them. -/
def requestMatches (stored query : Request) : Bool :=
  decide (stored.url = query.url) && decide (stored.method = query.method)

/-- The method `cache.match(request)`: the response of the first matching entry. -/
def cacheMatch (c : Cache) (request : Request) : Option Response :=
  (c.find? (fun e => requestMatches e.1 request)).map (fun e => e.2)

/-- The method `cache.put(request, response)`: a request whose method is not GET is
refused (the call rejects and the partition is left as it was); otherwise the
entries matching the request are dropped and the new pair is added. -/
def cachePut (c : Cache) (request : Request) (response : Response) : Cache :=
  if request.method = "GET" then
    c.filter (fun e => !requestMatches e.1 request) ++ [(request, response)]
  else c

/-- The method `caches.match(request)`: partitions are searched in creation order. -/
def cachesMatch (caches : CacheStorage) (request : Request) : Option Response :=
  caches.findSome? (fun p => cacheMatch p.2 request)

/-- The method `caches.open(name)`: the partition is created when it is missing. -/
def cachesOpen (caches : CacheStorage) (name : String) : CacheStorage :=
  if caches.any (fun p => decide (p.1 = name)) then caches else caches ++ [(name, [])]

/-- The chain `caches.open(name).then(cache => cache.put(request, response))`: the
partition is opened (and created when missing) before the put is tried. -/
def cachesPut (caches : CacheStorage) (name : String) (request : Request)
    (response : Response) : CacheStorage :=
  (cachesOpen caches name).map
    (fun p => if p.1 = name then (p.1, cachePut p.2 request response) else p)

/-- The method `caches.keys()`. -/
def cachesKeys (caches : CacheStorage) : List String := caches.map (fun p => p.1)

/-- The method `caches.delete(name)`. -/
def cachesDelete (caches : CacheStorage) (name : String) : CacheStorage :=
  caches.filter (fun p => !decide (p.1 = name))

/-- The partition stored under a name, if any. -/
def cachesLookup (caches : CacheStorage) (name : String) : Option Cache :=
  (caches.find? (fun p => decide (p.1 = name))).map (fun p => p.2)

/-! ## Service worker: the activate listener -/

/-- The condition of the activate listener: the name is not a current partition. -/
def isOldCache (cache : String) : Bool :=
  decide (cache ≠ CACHE_NAME) && decide (cache ≠ STATIC_CACHE_NAME)

/-- What the activate listener did: the names it deleted, and the storage left. -/
structure ActivateResult where
  deleted : List String
  caches : CacheStorage
deriving DecidableEq, Repr

/-- One step of `cacheNames.map(...)` in the activate listener. -/
def activateStep (acc : ActivateResult) (cache : String) : ActivateResult :=
  if isOldCache cache then
    { deleted := acc.deleted ++ [cache], caches := cachesDelete acc.caches cache }
  else acc

/-- The activate listener: every name of `caches.keys()` is visited once. -/
def activateListener (caches : CacheStorage) : ActivateResult :=
  (cachesKeys caches).foldl activateStep { deleted := [], caches := caches }

/-! ## Service worker: the fetch listener -/

/-- A `cache.put` call the worker made, accepted or refused: the partition, the
request and the response. -/
structure CacheWrite where
  cacheName : String
  request : Request
  response : Response
deriving DecidableEq, Repr

/-- What the fetch listener did: the settled value of `respondWith` (`none` for
`undefined` or a rejection), the storage afterwards, the network fetches made,
and the `cache.put` calls made. -/
structure FetchResult where
  response : Option Response
  caches : CacheStorage
  fetches : List Request
  puts : List CacheWrite
deriving DecidableEq, Repr

/-- The test of line 69: some API prefix starts the path. -/
def isApiRequest (request : Request) : Bool :=
  API_CACHE_PATTERNS.any (fun pattern => startsWith request.url.pathname pattern)

/-- The destination half of the test of lines 91-94. -/
def isAssetDestination (request : Request) : Bool :=
  decide (request.destination = "style") ||
  decide (request.destination = "script") ||
  decide (request.destination = "font") ||
  decide (request.destination = "image")

/-- The test of lines 91-95: an asset destination, or a path listed in the manifest. -/
def isStaticRequest (request : Request) : Bool :=
  isAssetDestination request || includes STATIC_FILES request.url.pathname

/-- The request `caches.match('/')` looks up: the root of the worker's origin. -/
def rootRequest (selfOrigin : String) : Request :=
  { url := { origin := selfOrigin, pathname := "/", search := "" },
    method := "GET", destination := "" }

/-- The fetch listener. `selfOrigin` is the worker's origin, `network` the outcome
of `fetch(request)` (`none` when the fetch rejects). -/
def fetchListener (selfOrigin : String) (network : Request → Option Response)
    (caches : CacheStorage) (request : Request) : FetchResult :=
  if isApiRequest request then
    match network request with
    | some response =>
      if response.status = 200 then
        { response := some response,
          caches := cachesPut caches CACHE_NAME request response,
          fetches := [request],
          puts := [{ cacheName := CACHE_NAME, request := request, response := response }] }
      else
        { response := some response, caches := caches, fetches := [request], puts := [] }
    | none =>
      { response := cachesMatch caches request, caches := caches,
        fetches := [request], puts := [] }
  else if isStaticRequest request then
    match cachesMatch caches request with
    | some response =>
      { response := some response, caches := caches, fetches := [], puts := [] }
    | none =>
      match network request with
      | some response =>
        if response.status = 200 then
          { response := some response,
            caches := cachesPut caches STATIC_CACHE_NAME request response,
            fetches := [request],
            puts := [{ cacheName := STATIC_CACHE_NAME, request := request,
                       response := response }] }
        else
          { response := some response, caches := caches, fetches := [request], puts := [] }
      | none =>
        { response := none, caches := caches, fetches := [request], puts := [] }
  else
    match network request with
    | some response =>
      if response.status = 200 ∧ request.method = "GET" then
        { response := some response,
          caches := cachesPut caches CACHE_NAME request response,
          fetches := [request],
          puts := [{ cacheName := CACHE_NAME, request := request, response := response }] }
      else
        { response := some response, caches := caches, fetches := [request], puts := [] }
    | none =>
      match cachesMatch caches request with
      | some response =>
        { response := some response, caches := caches, fetches := [request], puts := [] }
      | none =>
        if request.destination = "document" then
          { response := cachesMatch caches (rootRequest selfOrigin), caches := caches,
            fetches := [request], puts := [] }
        else
          { response := none, caches := caches, fetches := [request], puts := [] }

/-! ## Install-prompt controller (pwa-install.js) -/

/-- The outcome of the native install prompt, `userChoice.outcome`. -/
inductive Outcome where
  | accepted
  | dismissed
deriving DecidableEq, Repr

/-- What the page offers when a handler runs: the display-mode query, the
`navigator.standalone` flag, and which mount points exist. -/
structure Env where
  displayModeStandalone : Bool
  navigatorStandalone : Bool
  hasUserDropdown : Bool
  hasTopbarRight : Bool
  hasBrand : Bool
  hasContainer : Bool
deriving DecidableEq, Repr

/-- The install button element: the properties `createInstallButton` sets, and
whether the element was inserted into the document. -/
structure Button where
  id : String
  className : String
  innerHTML : String
  display : String
  title : String
  attached : Bool
deriving DecidableEq, Repr

/-- The controller object and the page marks it leaves. `deferredPrompt` holds the
retained event (by number), `prompted` the events whose `prompt()` was called,
`suspended` the number of `handleInstallClick` calls waiting on `userChoice`,
`log` the outcomes reported. -/
structure PWAInstaller where
  deferredPrompt : Option Nat
  installButton : Option Button
  installedBadge : Bool
  successAlerts : Nat
  prompted : List Nat
  suspended : Nat
  log : List Outcome
deriving DecidableEq, Repr

/-- The method `isInstalled`. -/
def isInstalled (env : Env) : Bool :=
  env.displayModeStandalone || env.navigatorStandalone

/-- The method `hideInstallButton`. -/
def hideInstallButton (self : PWAInstaller) : PWAInstaller :=
  match self.installButton with
  | some b => { self with installButton := some { b with display := "none" } }
  | none => self

/-- The method `showInstallButton`. -/
def showInstallButton (env : Env) (self : PWAInstaller) : PWAInstaller :=
  match self.installButton with
  | some b =>
    if !isInstalled env then
      { self with installButton := some { b with display := "inline-block" } }
    else self
  | none => self

/-- The method `addInstalledIndicator`: the badge is added once, beside the brand. -/
def addInstalledIndicator (env : Env) (self : PWAInstaller) : PWAInstaller :=
  if env.hasBrand && !self.installedBadge then { self with installedBadge := true } else self

/-- The method `checkIfInstalled`. -/
def checkIfInstalled (env : Env) (self : PWAInstaller) : PWAInstaller :=
  let isInWebApp := env.displayModeStandalone || env.navigatorStandalone
  if isInWebApp then addInstalledIndicator env (hideInstallButton self) else self

/-- The method `createInstallButton`: the button starts hidden and is mounted before
the user dropdown, else at the end of the topbar, else nowhere. -/
def createInstallButton (env : Env) (self : PWAInstaller) : PWAInstaller :=
  { self with
    installButton := some
      { id := "pwa-install-btn",
        className := "btn btn-outline-light btn-sm",
        innerHTML := "<i class=\"fas fa-download me-1\"></i> Zainstaluj Aplikację",
        display := "none",
        title := "Zainstaluj BSort jako aplikację na swoim urządzeniu",
        attached := env.hasUserDropdown || env.hasTopbarRight } }

/-- The method `showInstallSuccessMessage`: one more alert when the container exists. -/
def showInstallSuccessMessage (env : Env) (self : PWAInstaller) : PWAInstaller :=
  if env.hasContainer then { self with successAlerts := self.successAlerts + 1 } else self

/-- The method `init`, after the two listeners are registered. -/
def init (env : Env) (self : PWAInstaller) : PWAInstaller :=
  createInstallButton env (checkIfInstalled env self)

/-- The constructor: `new PWAInstaller()`. -/
def newPWAInstaller (env : Env) : PWAInstaller :=
  init env
    { deferredPrompt := none, installButton := none, installedBadge := false,
      successAlerts := 0, prompted := [], suspended := 0, log := [] }

/-- The `beforeinstallprompt` listener; `e` is the event. -/
def onBeforeInstallPrompt (env : Env) (e : Nat) (self : PWAInstaller) : PWAInstaller :=
  showInstallButton env { self with deferredPrompt := some e }

/-- The `appinstalled` listener. -/
def onAppInstalled (env : Env) (self : PWAInstaller) : PWAInstaller :=
  showInstallSuccessMessage env { hideInstallButton self with deferredPrompt := none }

/-- The method `handleInstallClick` up to its `await`: nothing without a retained
event, else the native prompt is shown and the call is suspended. -/
def handleInstallClickStart (self : PWAInstaller) : PWAInstaller :=
  match self.deferredPrompt with
  | none => self
  | some e => { self with prompted := self.prompted ++ [e], suspended := self.suspended + 1 }

/-- The method `handleInstallClick` after its `await`, given the outcome. -/
def handleInstallClickResume (outcome : Outcome) (self : PWAInstaller) : PWAInstaller :=
  hideInstallButton
    { self with log := self.log ++ [outcome], suspended := self.suspended - 1,
                deferredPrompt := none }

/-- The method `handleInstallClick` run to its end with the given outcome. -/
def handleInstallClick (outcome : Outcome) (self : PWAInstaller) : PWAInstaller :=
  match self.deferredPrompt with
  | none => self
  | some _ => handleInstallClickResume outcome (handleInstallClickStart self)

/-- The events the controller handles. A trigger activation is two events: the
click, and the later settling of `userChoice`. -/
inductive PageEvent where
  | beforeinstallprompt (e : Nat)
  | appinstalled
  | click
  | userChoice (outcome : Outcome)
deriving DecidableEq, Repr

/-- One event handled by the controller, in the page environment of that moment.
A settled `userChoice` resumes a suspended call; without one nothing happens. -/
def PWAInstaller.step (self : PWAInstaller) (ev : Env × PageEvent) : PWAInstaller :=
  match ev.2 with
  | PageEvent.beforeinstallprompt e => onBeforeInstallPrompt ev.1 e self
  | PageEvent.appinstalled => onAppInstalled ev.1 self
  | PageEvent.click => handleInstallClickStart self
  | PageEvent.userChoice outcome =>
    if self.suspended = 0 then self else handleInstallClickResume outcome self

/-- A sequence of events handled in order. -/
def PWAInstaller.run (self : PWAInstaller) (evs : List (Env × PageEvent)) : PWAInstaller :=
  evs.foldl PWAInstaller.step self

/-- The trigger is visible: the button exists and its display style is not `none`. -/
def triggerVisible (self : PWAInstaller) : Bool :=
  match self.installButton with
  | some b => decide (b.display ≠ "none")
  | none => false

/-- A deferred install signal is retained. -/
def signalRetained (self : PWAInstaller) : Bool := self.deferredPrompt.isSome

/-! ## Connectivity listeners (pwa-install.js) -/

/-- A page element: its tag, its class list and its content. -/
structure Element where
  tag : String
  classList : List String
  innerHTML : String
deriving DecidableEq, Repr

/-- The page: its elements in document order. -/
abbrev Document := List Element

/-- The selector `.topbar`. -/
def isTopbar (el : Element) : Bool := el.classList.contains "topbar"

/-- The selector `.offline-indicator`. -/
def isOfflineIndicator (el : Element) : Bool := el.classList.contains "offline-indicator"

/-- The banner the offline listener creates. -/
def offlineIndicatorElement : Element :=
  { tag := "div",
    classList := ["offline-indicator", "bg-warning", "text-dark", "text-center", "py-1"],
    innerHTML :=
      "<i class=\"fas fa-wifi me-1\"></i> Tryb offline - niektóre funkcje mogą być ograniczone" }

/-- The call `ref.parentNode.insertBefore(el, ref.nextSibling)` for the first
element matching `p`: `el` is placed right behind it. -/
def insertAfterFirst (p : Element → Bool) (el : Element) : Document → Document
  | [] => []
  | x :: xs => if p x then x :: el :: xs else x :: insertAfterFirst p el xs

/-- The `online` listener: the first offline banner, if any, is removed. -/
def onOnline (doc : Document) : Document :=
  match doc.find? isOfflineIndicator with
  | some _ => doc.eraseP isOfflineIndicator
  | none => doc

/-- The `offline` listener: a banner is added behind the topbar unless one exists. -/
def onOffline (doc : Document) : Document :=
  if (doc.find? isTopbar).isSome && !(doc.find? isOfflineIndicator).isSome then
    insertAfterFirst isTopbar offlineIndicatorElement doc
  else doc

/-- The two connectivity events. -/
inductive ConnectivityEvent where
  | online
  | offline
deriving DecidableEq, Repr

/-- One connectivity event handled. -/
def connectivityStep (doc : Document) : ConnectivityEvent → Document
  | ConnectivityEvent.online => onOnline doc
  | ConnectivityEvent.offline => onOffline doc

/-- A sequence of connectivity events handled in order. -/
def connectivityRun (doc : Document) (evs : List ConnectivityEvent) : Document :=
  evs.foldl connectivityStep doc

/-- The number of offline banners on the page. -/
def offlineBanners (doc : Document) : Nat := doc.countP isOfflineIndicator

/-! ## Sample inputs and stated properties -/

/-- A form submission to an API path. -/
def postSorting : Request :=
  { url := { origin := "https://bsort.example", pathname := "/sorting/bags/add/", search := "" },
    method := "POST", destination := "" }

/-- A read of an API path. -/
def getSorting : Request :=
  { url := { origin := "https://bsort.example", pathname := "/sorting/bags/", search := "" },
    method := "GET", destination := "" }

/-- An image served under an API prefix. -/
def sortingImage : Request :=
  { url := { origin := "https://bsort.example", pathname := "/sorting/media/bag.png",
             search := "" },
    method := "GET", destination := "image" }

/-- The application stylesheet. -/
def stylesheet : Request :=
  { url := { origin := "https://bsort.example", pathname := "/static/sorting/css/styles.css",
             search := "" },
    method := "GET", destination := "style" }

/-- The manifest file, requested with the destination `manifest`. -/
def manifestFile : Request :=
  { url := { origin := "https://bsort.example", pathname := "/static/sorting/manifest.json",
             search := "" },
    method := "GET", destination := "manifest" }

/-- The jQuery CDN script of the manifest, requested by a script through `fetch`. -/
def jqueryByFetch : Request :=
  { url := { origin := "https://code.jquery.com", pathname := "/jquery-3.6.4.min.js",
             search := "" },
    method := "GET", destination := "" }

/-- A page navigation outside the API prefixes. -/
def aboutPage : Request :=
  { url := { origin := "https://bsort.example", pathname := "/about/", search := "" },
    method := "GET", destination := "document" }

/-- The entry of the manifest as `cache.addAll` resolves it: a path is taken
relative to the worker's origin, a full URL is taken as it is. -/
def resolveManifestEntry (selfOrigin entry : String) : String :=
  if startsWith entry "/" then selfOrigin ++ entry else entry

/-- The request's URL is exactly an entry of the static manifest. -/
def urlInManifest (selfOrigin : String) (request : Request) : Bool :=
  STATIC_FILES.any (fun entry => decide (resolveManifestEntry selfOrigin entry = request.url.href))

/-- The invariant of the controller: a visible trigger has a retained signal. -/
def visibleImpliesRetained (self : PWAInstaller) : Prop :=
  triggerVisible self = true → signalRetained self = true

/-- A page environment of a browser tab: not installed, every mount point present. -/
def browserTab : Env :=
  { displayModeStandalone := false, navigatorStandalone := false, hasUserDropdown := true,
    hasTopbarRight := true, hasBrand := true, hasContainer := true }

/-- A page environment of the installed app: standalone display mode. -/
def standaloneApp : Env := { browserTab with displayModeStandalone := true }

/-- The page invariant of the connectivity listeners: a topbar exists, no banner
is a topbar, and there is at most one banner. -/
def connectivityInv (doc : Document) : Prop :=
  (doc.find? isTopbar).isSome = true ∧
  (∀ el ∈ doc, isOfflineIndicator el = true → isTopbar el = false) ∧
  offlineBanners doc ≤ 1

/-- A page with a topbar and a content container. -/
def samplePage : Document :=
  [ { tag := "nav", classList := ["topbar", "navbar"], innerHTML := "" },
    { tag := "div", classList := ["container", "mt-4"], innerHTML := "" } ]

/-! ## Cache storage lemmas -/

theorem requestMatches_self (request : Request) : requestMatches request request = true := by
  simp [requestMatches]

theorem cacheMatch_cachePut (c : Cache) (request : Request) (response : Response)
    (hget : request.method = "GET") :
    cacheMatch (cachePut c request response) request = some response := by
  unfold cacheMatch cachePut
  rw [if_pos hget, List.find?_append]
  have h : (c.filter (fun e => !requestMatches e.1 request)).find?
      (fun e => requestMatches e.1 request) = none := by
    rw [List.find?_eq_none]
    intro e he
    have := (List.mem_filter.mp he).2
    simpa using this
  rw [h]
  simp [requestMatches_self]

theorem cachesLookup_cachesOpen (caches : CacheStorage) (name : String) :
    cachesLookup (cachesOpen caches name) name
      = some ((cachesLookup caches name).getD []) := by
  unfold cachesLookup cachesOpen
  by_cases h : caches.any (fun p => decide (p.1 = name)) = true
  · rw [if_pos h]
    obtain ⟨p, hp, hq⟩ := List.any_eq_true.mp h
    cases hf : caches.find? (fun p => decide (p.1 = name)) with
    | none =>
      rw [List.find?_eq_none] at hf
      exact absurd hq (hf p hp)
    | some q => simp
  · rw [if_neg h]
    have hn : caches.find? (fun p => decide (p.1 = name)) = none := by
      rw [List.find?_eq_none]
      intro p hp hq
      exact h (List.any_eq_true.mpr ⟨p, hp, hq⟩)
    rw [List.find?_append, hn]
    simp

theorem cachesLookup_cachesPut (caches : CacheStorage) (name : String) (request : Request)
    (response : Response) :
    cachesLookup (cachesPut caches name request response) name
      = some (cachePut ((cachesLookup caches name).getD []) request response) := by
  have h := cachesLookup_cachesOpen caches name
  unfold cachesPut
  unfold cachesLookup at h ⊢
  rw [List.find?_map]
  have hf : ((fun p : String × Cache => decide (p.1 = name)) ∘
      (fun p : String × Cache => if p.1 = name then (p.1, cachePut p.2 request response) else p))
      = (fun p : String × Cache => decide (p.1 = name)) := by
    funext p
    by_cases hp : p.1 = name <;> simp [hp]
  rw [hf]
  cases hq : (cachesOpen caches name).find? (fun p => decide (p.1 = name)) with
  | none => rw [hq] at h; simp at h
  | some q =>
    rw [hq] at h
    have hq1 : q.1 = name := by
      have := List.find?_some hq
      simpa using this
    simp only [Option.map_some'] at h ⊢
    rw [if_pos hq1]
    simp only [Option.some.injEq] at h
    simp [h]

/-- After the chained open-and-put, the named partition answers the request with
the response just stored. -/
theorem cachesPut_stored (caches : CacheStorage) (name : String) (request : Request)
    (response : Response) (hget : request.method = "GET") :
    ∃ c, cachesLookup (cachesPut caches name request response) name = some c ∧
      cacheMatch c request = some response :=
  ⟨_, cachesLookup_cachesPut caches name request response, cacheMatch_cachePut _ _ _ hget⟩

/-- The partitions after `caches.open(name)`: the storage as it was, or with an
empty partition of that name added. -/
theorem cachesOpen_cases (caches : CacheStorage) (name : String) :
    cachesOpen caches name = caches ∨ cachesOpen caches name = caches ++ [(name, [])] := by
  unfold cachesOpen
  split_ifs
  · exact Or.inl rfl
  · exact Or.inr rfl

/-- A refused put leaves only the opening of the partition. -/
theorem cachesPut_of_not_get (caches : CacheStorage) (name : String) (request : Request)
    (response : Response) (h : request.method ≠ "GET") :
    cachesPut caches name request response = cachesOpen caches name := by
  unfold cachesPut
  have hf : (fun p : String × Cache =>
      if p.1 = name then (p.1, cachePut p.2 request response) else p) = id := by
    funext p
    unfold cachePut
    rw [if_neg h]
    split_ifs <;> rfl
  rw [hf, List.map_id]

/-- Every entry of the storage after the chained open-and-put was an entry of the
same partition before, or is the pair just put, and then for a GET request. -/
theorem cachesPut_entries (caches : CacheStorage) (name : String) (request : Request)
    (response : Response) :
    ∀ p ∈ cachesPut caches name request response, ∀ e ∈ p.2,
      (∃ q ∈ caches, q.1 = p.1 ∧ e ∈ q.2) ∨
      (request.method = "GET" ∧ e = (request, response)) := by
  intro p hp e he
  unfold cachesPut at hp
  obtain ⟨q, hq, hfq⟩ := List.mem_map.mp hp
  have hq2 : q ∈ caches ∨ q = (name, []) := by
    rcases cachesOpen_cases caches name with h | h
    · rw [h] at hq
      exact Or.inl hq
    · rw [h] at hq
      rcases List.mem_append.mp hq with h1 | h1
      · exact Or.inl h1
      · exact Or.inr (by simpa using h1)
  by_cases hn : q.1 = name
  · rw [if_pos hn] at hfq
    subst hfq
    unfold cachePut at he
    by_cases hget : request.method = "GET"
    · rw [if_pos hget] at he
      rcases List.mem_append.mp he with h1 | h1
      · have hmem : e ∈ q.2 := (List.mem_filter.mp h1).1
        rcases hq2 with h2 | h2
        · exact Or.inl ⟨q, h2, rfl, hmem⟩
        · rw [h2] at hmem
          simp at hmem
      · exact Or.inr ⟨hget, by simpa using h1⟩
    · rw [if_neg hget] at he
      rcases hq2 with h2 | h2
      · exact Or.inl ⟨q, h2, rfl, he⟩
      · rw [h2] at he
        simp at he
  · rw [if_neg hn] at hfq
    subst hfq
    rcases hq2 with h2 | h2
    · exact Or.inl ⟨q, h2, rfl, he⟩
    · rw [h2] at he
      simp at he

theorem cacheMatch_some_iff (c : Cache) (request : Request) :
    (cacheMatch c request).isSome = true ↔ ∃ e ∈ c, requestMatches e.1 request = true := by
  unfold cacheMatch
  cases hf : c.find? (fun e => requestMatches e.1 request) with
  | none =>
    rw [List.find?_eq_none] at hf
    simp only [Option.map_none', Option.isSome_none, Bool.false_eq_true, false_iff]
    rintro ⟨e, he, hm⟩
    exact hf e he hm
  | some e =>
    simp only [Option.map_some', Option.isSome_some, true_iff]
    exact ⟨e, List.mem_of_find?_eq_some hf, by simpa using List.find?_some hf⟩

theorem cacheMatch_mem {c : Cache} {request : Request} {response : Response}
    (h : cacheMatch c request = some response) :
    ∃ e ∈ c, requestMatches e.1 request = true ∧ e.2 = response := by
  unfold cacheMatch at h
  cases hf : c.find? (fun e => requestMatches e.1 request) with
  | none => rw [hf] at h; simp at h
  | some e =>
    rw [hf] at h
    refine ⟨e, List.mem_of_find?_eq_some hf, ?_, ?_⟩
    · simpa using List.find?_some hf
    · simpa using h

theorem cachesMatch_mem {caches : CacheStorage} {request : Request} {response : Response}
    (h : cachesMatch caches request = some response) :
    ∃ p ∈ caches, ∃ e ∈ p.2, requestMatches e.1 request = true ∧ e.2 = response := by
  unfold cachesMatch at h
  obtain ⟨p, hp, hm⟩ := List.exists_of_findSome?_eq_some h
  exact ⟨p, hp, cacheMatch_mem hm⟩

theorem cachesMatch_isSome_of_mem {caches : CacheStorage} {request : Request}
    (h : ∃ p ∈ caches, ∃ e ∈ p.2, requestMatches e.1 request = true) :
    (cachesMatch caches request).isSome = true := by
  obtain ⟨p, hp, he⟩ := h
  unfold cachesMatch
  rw [List.findSome?_isSome_iff]
  exact ⟨p, hp, (cacheMatch_some_iff p.2 request).mpr he⟩

/-! ## The activate listener -/

theorem activate_foldl (names : List String) (acc : ActivateResult) :
    names.foldl activateStep acc
      = { deleted := acc.deleted ++ names.filter isOldCache,
          caches := acc.caches.filter (fun p => !(isOldCache p.1 && names.contains p.1)) } := by
  induction names generalizing acc with
  | nil => simp
  | cons n ns ih =>
    rw [List.foldl_cons, ih]
    by_cases hn : isOldCache n = true
    · simp only [activateStep, hn, if_true, List.filter_cons_of_pos, cachesDelete]
      congr 1
      · simp
      · rw [List.filter_filter]
        apply List.filter_congr
        intro p _
        by_cases hp : p.1 = n
        · simp [hp, hn]
        · have hp2 : (p.1 == n) = false := by simpa using hp
          simp [hp, hp2, List.contains_cons]
    · have hn2 : isOldCache n = false := by simpa using hn
      simp only [activateStep, hn2, Bool.false_eq_true, if_false]
      congr 1
      · simp [hn2]
      · apply List.filter_congr
        intro p _
        by_cases hp : p.1 = n
        · simp [hp, hn2]
        · have hp2 : (p.1 == n) = false := by simpa using hp
          simp [hp, hp2, List.contains_cons]

theorem activateListener_eq (caches : CacheStorage) :
    activateListener caches
      = { deleted := (cachesKeys caches).filter isOldCache,
          caches := caches.filter (fun p => !isOldCache p.1) } := by
  have hf : caches.filter (fun p => !(isOldCache p.1 && (cachesKeys caches).contains p.1))
      = caches.filter (fun p => !isOldCache p.1) := by
    apply List.filter_congr
    intro p hp
    have : (cachesKeys caches).contains p.1 = true := by
      have hm : p.1 ∈ cachesKeys caches := List.mem_map.mpr ⟨p, hp, rfl⟩
      simpa using hm
    rw [this, Bool.and_true]
  unfold activateListener
  rw [activate_foldl, hf, List.nil_append]

theorem isOldCache_iff (name : String) :
    isOldCache name = true ↔ name ≠ CACHE_NAME ∧ name ≠ STATIC_CACHE_NAME := by
  simp [isOldCache]

/-- C5: for every cache storage, the activate listener deletes exactly the partition
names that are neither `bsort-v1` nor `bsort-static-v1` and keeps every other
partition with its content; with partitions `bsort-v0` and `bsort-static-v1` it
deletes `bsort-v0` only. -/
theorem C5_activate_deletes_exactly_old (caches : CacheStorage) :
    (∀ name, name ∈ (activateListener caches).deleted ↔
        name ∈ cachesKeys caches ∧ name ≠ "bsort-v1" ∧ name ≠ "bsort-static-v1") ∧
    (∀ p, p ∈ (activateListener caches).caches ↔
        p ∈ caches ∧ (p.1 = "bsort-v1" ∨ p.1 = "bsort-static-v1")) ∧
    (activateListener caches).caches
        = caches.filter (fun p => decide (p.1 = "bsort-v1" ∨ p.1 = "bsort-static-v1")) ∧
    (∀ c0 c1 : Cache,
        activateListener [("bsort-v0", c0), ("bsort-static-v1", c1)]
          = { deleted := ["bsort-v0"], caches := [("bsort-static-v1", c1)] }) := by
  have hiff : ∀ name : String, isOldCache name = true ↔
      name ≠ "bsort-v1" ∧ name ≠ "bsort-static-v1" := isOldCache_iff
  refine ⟨?_, ?_, ?_, ?_⟩
  · intro name
    rw [activateListener_eq]
    simp only [List.mem_filter, hiff]
  · intro p
    rw [activateListener_eq]
    simp only [List.mem_filter, Bool.not_eq_true', ← Bool.not_eq_true, hiff]
    constructor
    · rintro ⟨hp, h⟩
      refine ⟨hp, ?_⟩
      by_contra hc
      push_neg at hc
      exact h hc
    · rintro ⟨hp, h⟩
      refine ⟨hp, ?_⟩
      rintro ⟨h1, h2⟩
      rcases h with h | h
      · exact h1 h
      · exact h2 h
  · rw [activateListener_eq]
    apply List.filter_congr
    intro p _
    by_cases h : isOldCache p.1 = true
    · have := (hiff p.1).mp h
      simp [h, this.1, this.2]
    · have h2 : isOldCache p.1 = false := by simpa using h
      have : ¬ (p.1 ≠ "bsort-v1" ∧ p.1 ≠ "bsort-static-v1") := fun hc => h ((hiff p.1).mpr hc)
      have h3 : p.1 = "bsort-v1" ∨ p.1 = "bsort-static-v1" := by
        by_contra hc
        push_neg at hc
        exact this hc
      simp [h2, h3]
  · intro c0 c1
    rw [activateListener_eq]
    have h0 : isOldCache "bsort-v0" = true := by decide
    have h1 : isOldCache "bsort-static-v1" = false := by decide
    simp [cachesKeys, List.filter, h0, h1]

/-! ## The fetch listener: theorems -/

/-- Every `cache.put` the fetch listener makes stores a response of status 200. -/
theorem fetchListener_puts_status (selfOrigin : String) (network : Request → Option Response)
    (caches : CacheStorage) (request : Request) :
    ∀ w ∈ (fetchListener selfOrigin network caches request).puts, w.response.status = 200 := by
  intro w hw
  unfold fetchListener at hw
  split_ifs at hw <;> (try split at hw) <;> (try split at hw) <;> (try split_ifs at hw) <;>
    simp_all

/-- The storage after the fetch listener is the storage before it with the recorded
`cache.put` calls applied in order. -/
theorem fetchListener_caches_eq_puts (selfOrigin : String)
    (network : Request → Option Response) (caches : CacheStorage) (request : Request) :
    (fetchListener selfOrigin network caches request).caches
      = (fetchListener selfOrigin network caches request).puts.foldl
          (fun cs w => cachesPut cs w.cacheName w.request w.response) caches := by
  unfold fetchListener
  split_ifs <;> (try split) <;> (try split) <;> (try split_ifs) <;> rfl

/-- In the generic network-first branch every `cache.put` is for a GET request. -/
theorem fetchListener_generic_puts_get (selfOrigin : String)
    (network : Request → Option Response) (caches : CacheStorage) (request : Request)
    (hapi : isApiRequest request = false) (hstatic : isStaticRequest request = false) :
    ∀ w ∈ (fetchListener selfOrigin network caches request).puts,
      w.request.method = "GET" ∧ w.response.status = 200 := by
  intro w hw
  unfold fetchListener at hw
  simp only [hapi, hstatic, Bool.false_eq_true, if_false] at hw
  split at hw
  · split_ifs at hw with h
    · simp only [List.mem_singleton] at hw
      rw [hw]
      exact ⟨h.2, h.1⟩
    · simp at hw
  · split at hw
    · simp at hw
    · split_ifs at hw <;> simp at hw

/-- The storage after the fetch listener is the storage before it, or the chained
open-and-put of a status-200 network response into one of the two partitions. -/
theorem fetchListener_caches_cases (selfOrigin : String)
    (network : Request → Option Response) (caches : CacheStorage) (request : Request) :
    (fetchListener selfOrigin network caches request).caches = caches ∨
    ∃ response, network request = some response ∧ response.status = 200 ∧
      ((fetchListener selfOrigin network caches request).caches
          = cachesPut caches CACHE_NAME request response ∨
       (fetchListener selfOrigin network caches request).caches
          = cachesPut caches STATIC_CACHE_NAME request response) := by
  cases hnet : network request with
  | none =>
    left
    unfold fetchListener
    by_cases hapi : isApiRequest request = true <;>
      by_cases hstatic : isStaticRequest request = true <;>
      cases hm : cachesMatch caches request <;>
      by_cases hd : request.destination = "document" <;>
      simp [hapi, hstatic, hm, hd, hnet]
  | some response =>
    by_cases hs : response.status = 200
    · by_cases hapi : isApiRequest request = true
      · right
        refine ⟨response, rfl, hs, Or.inl ?_⟩
        unfold fetchListener
        simp [hapi, hnet, hs]
      · have hapi2 : isApiRequest request = false := by simpa using hapi
        by_cases hstatic : isStaticRequest request = true
        · cases hm : cachesMatch caches request with
          | some stored =>
            left
            unfold fetchListener
            simp [hapi2, hstatic, hm]
          | none =>
            right
            refine ⟨response, rfl, hs, Or.inr ?_⟩
            unfold fetchListener
            simp [hapi2, hstatic, hm, hnet, hs]
        · have hstatic2 : isStaticRequest request = false := by simpa using hstatic
          by_cases hget : request.method = "GET"
          · right
            refine ⟨response, rfl, hs, Or.inl ?_⟩
            unfold fetchListener
            simp [hapi2, hstatic2, hnet, hs, hget]
          · left
            unfold fetchListener
            simp [hapi2, hstatic2, hnet, hs, hget]
    · left
      unfold fetchListener
      by_cases hapi : isApiRequest request = true <;>
        by_cases hstatic : isStaticRequest request = true <;>
        cases hm : cachesMatch caches request <;>
        simp [hapi, hstatic, hm, hnet, hs]

/-- A POST to an API path answered with status 200: the API branch calls
`cache.put`, the put is refused, and all that is left is the opened partition. -/
theorem fetchListener_post_put_refused :
    postSorting.method ≠ "GET" ∧
    isApiRequest postSorting = true ∧
    (fetchListener "https://bsort.example" (fun _ => some ⟨200, "saved"⟩) [] postSorting).puts
      = [{ cacheName := "bsort-v1", request := postSorting, response := ⟨200, "saved"⟩ }] ∧
    (fetchListener "https://bsort.example" (fun _ => some ⟨200, "saved"⟩) [] postSorting).caches
      = [("bsort-v1", [])] ∧
    (fetchListener "https://bsort.example" (fun _ => some ⟨200, "home"⟩) []
        { rootRequest "https://bsort.example" with method := "POST" }).caches
      = [("bsort-static-v1", [])] ∧
    (fetchListener "https://bsort.example" (fun _ => some ⟨200, "sent"⟩) []
        { aboutPage with method := "POST" }).puts = [] := by
  decide

/-- C1: for every intercepted request, every network outcome and every storage, in
each of the three strategies: every entry a partition holds after the fetch
listener was an entry of that partition before, or is the request paired with
its network response, and then the request method is GET and the response
status is 200. When the method is not GET or the status is not 200 no partition
gains or loses an entry: the storage is as it was, or has one more, empty,
partition (the one opened for a put that was refused). -/
theorem C1_only_get_200_written (selfOrigin : String)
    (network : Request → Option Response) (caches : CacheStorage) (request : Request) :
    (∀ p ∈ (fetchListener selfOrigin network caches request).caches, ∀ e ∈ p.2,
      (∃ q ∈ caches, q.1 = p.1 ∧ e ∈ q.2) ∨
      (request.method = "GET" ∧ e.1 = request ∧ network request = some e.2 ∧
        e.2.status = 200)) ∧
    (¬ (request.method = "GET" ∧
        ∃ response, network request = some response ∧ response.status = 200) →
      (fetchListener selfOrigin network caches request).caches = caches ∨
      (fetchListener selfOrigin network caches request).caches
        = caches ++ [("bsort-v1", [])] ∨
      (fetchListener selfOrigin network caches request).caches
        = caches ++ [("bsort-static-v1", [])]) := by
  have hcases := fetchListener_caches_cases selfOrigin network caches request
  constructor
  · intro p hp e he
    rcases hcases with h | ⟨response, hnet, hs, h | h⟩
    · rw [h] at hp
      exact Or.inl ⟨p, hp, rfl, he⟩
    · rw [h] at hp
      rcases cachesPut_entries caches CACHE_NAME request response p hp e he with h1 | ⟨hget, h1⟩
      · exact Or.inl h1
      · exact Or.inr ⟨hget, by rw [h1], by rw [h1]; exact hnet, by rw [h1]; exact hs⟩
    · rw [h] at hp
      rcases cachesPut_entries caches STATIC_CACHE_NAME request response p hp e he with
        h1 | ⟨hget, h1⟩
      · exact Or.inl h1
      · exact Or.inr ⟨hget, by rw [h1], by rw [h1]; exact hnet, by rw [h1]; exact hs⟩
  · intro hnot
    rcases hcases with h | ⟨response, hnet, hs, h | h⟩
    · exact Or.inl h
    · have hget : request.method ≠ "GET" := fun hg => hnot ⟨hg, response, hnet, hs⟩
      rw [h, cachesPut_of_not_get caches CACHE_NAME request response hget]
      rcases cachesOpen_cases caches CACHE_NAME with h2 | h2
      · exact Or.inl h2
      · exact Or.inr (Or.inl h2)
    · have hget : request.method ≠ "GET" := fun hg => hnot ⟨hg, response, hnet, hs⟩
      rw [h, cachesPut_of_not_get caches STATIC_CACHE_NAME request response hget]
      rcases cachesOpen_cases caches STATIC_CACHE_NAME with h2 | h2
      · exact Or.inl h2
      · exact Or.inr (Or.inr h2)

/-- C1 at a storage that holds a read of an API path: a POST answered with status
200 leaves it as it was, a read answered with status 404 leaves it as it was,
and a read answered with status 200 replaces the entry. -/
theorem C1_only_get_200_written_witness :
    ((fetchListener "https://bsort.example" (fun _ => some ⟨200, "saved"⟩)
        [("bsort-v1", [(getSorting, ⟨200, "bags"⟩)])] postSorting).caches
        = [("bsort-v1", [(getSorting, ⟨200, "bags"⟩)])] ∨
      (fetchListener "https://bsort.example" (fun _ => some ⟨200, "saved"⟩)
        [("bsort-v1", [(getSorting, ⟨200, "bags"⟩)])] postSorting).caches
        = [("bsort-v1", [(getSorting, ⟨200, "bags"⟩)])] ++ [("bsort-v1", [])] ∨
      (fetchListener "https://bsort.example" (fun _ => some ⟨200, "saved"⟩)
        [("bsort-v1", [(getSorting, ⟨200, "bags"⟩)])] postSorting).caches
        = [("bsort-v1", [(getSorting, ⟨200, "bags"⟩)])] ++ [("bsort-static-v1", [])]) ∧
    (fetchListener "https://bsort.example" (fun _ => some ⟨200, "saved"⟩)
        [("bsort-v1", [(getSorting, ⟨200, "bags"⟩)])] postSorting).caches
      = [("bsort-v1", [(getSorting, ⟨200, "bags"⟩)])] ∧
    (fetchListener "https://bsort.example" (fun _ => some ⟨404, "gone"⟩)
        [("bsort-v1", [(getSorting, ⟨200, "bags"⟩)])] getSorting).caches
      = [("bsort-v1", [(getSorting, ⟨200, "bags"⟩)])] ∧
    (fetchListener "https://bsort.example" (fun _ => some ⟨200, "more bags"⟩)
        [("bsort-v1", [(getSorting, ⟨200, "bags"⟩)])] getSorting).caches
      = [("bsort-v1", [(getSorting, ⟨200, "more bags"⟩)])] :=
  ⟨(C1_only_get_200_written "https://bsort.example" (fun _ => some ⟨200, "saved"⟩)
      [("bsort-v1", [(getSorting, ⟨200, "bags"⟩)])] postSorting).2
      (fun h => absurd h.1 (by decide)),
   by decide, by decide, by decide⟩

/-- C2 as stated fails: an image under `/sorting/` with a cached entry is fetched
from the network, and the network response is returned in place of the stored one. -/
theorem C2_counterexample :
    isAssetDestination sortingImage = true ∧
    cachesMatch [("bsort-static-v1", [(sortingImage, ⟨200, "stored"⟩)])] sortingImage
      = some ⟨200, "stored"⟩ ∧
    (fetchListener "https://bsort.example" (fun _ => some ⟨200, "fresh"⟩)
        [("bsort-static-v1", [(sortingImage, ⟨200, "stored"⟩)])] sortingImage).fetches
      = [sortingImage] ∧
    (fetchListener "https://bsort.example" (fun _ => some ⟨200, "fresh"⟩)
        [("bsort-static-v1", [(sortingImage, ⟨200, "stored"⟩)])] sortingImage).response
      = some ⟨200, "fresh"⟩ := by
  decide

/-- C2, amended: for every request whose destination is style, script, font or image,
whose path starts with no API prefix, and for which the cache storage holds a
matching entry, the fetch listener makes no network fetch, returns exactly the
stored response, and leaves the storage as it was. -/
theorem C2_cached_asset_served_without_network (selfOrigin : String)
    (network : Request → Option Response) (caches : CacheStorage) (request : Request)
    (stored : Response)
    (hdest : request.destination = "style" ∨ request.destination = "script" ∨
      request.destination = "font" ∨ request.destination = "image")
    (hapi : isApiRequest request = false)
    (hcached : cachesMatch caches request = some stored) :
    (fetchListener selfOrigin network caches request).fetches = [] ∧
    (fetchListener selfOrigin network caches request).response = some stored ∧
    (fetchListener selfOrigin network caches request).caches = caches ∧
    (fetchListener selfOrigin network caches request).puts = [] := by
  have hstatic : isStaticRequest request = true := by
    unfold isStaticRequest isAssetDestination
    rcases hdest with h | h | h | h <;> simp [h]
  unfold fetchListener
  simp [hapi, hstatic, hcached]

/-- C2, amended, at the cached stylesheet: it is served from the cache, the network untouched. -/
theorem C2_cached_asset_witness :
    (fetchListener "https://bsort.example" (fun _ => some ⟨200, "fresh"⟩)
        [("bsort-static-v1", [(stylesheet, ⟨200, "stored"⟩)])] stylesheet).fetches = [] ∧
    (fetchListener "https://bsort.example" (fun _ => some ⟨200, "fresh"⟩)
        [("bsort-static-v1", [(stylesheet, ⟨200, "stored"⟩)])] stylesheet).response
      = some ⟨200, "stored"⟩ ∧
    (fetchListener "https://bsort.example" (fun _ => some ⟨200, "fresh"⟩)
        [("bsort-static-v1", [(stylesheet, ⟨200, "stored"⟩)])] stylesheet).caches
      = [("bsort-static-v1", [(stylesheet, ⟨200, "stored"⟩)])] ∧
    (fetchListener "https://bsort.example" (fun _ => some ⟨200, "fresh"⟩)
        [("bsort-static-v1", [(stylesheet, ⟨200, "stored"⟩)])] stylesheet).puts = [] :=
  C2_cached_asset_served_without_network "https://bsort.example"
    (fun _ => some ⟨200, "fresh"⟩) [("bsort-static-v1", [(stylesheet, ⟨200, "stored"⟩)])]
    stylesheet ⟨200, "stored"⟩ (by decide) (by decide) (by decide)

/-- C3 as stated fails: a read of an API path that the network answers with status
204 is returned, yet nothing is stored and no partition `bsort-v1` exists. -/
theorem C3_counterexample :
    isApiRequest getSorting = true ∧
    (fetchListener "https://bsort.example" (fun _ => some ⟨204, ""⟩) [] getSorting).response
      = some ⟨204, ""⟩ ∧
    (fetchListener "https://bsort.example" (fun _ => some ⟨204, ""⟩) [] getSorting).puts = [] ∧
    cachesLookup
      (fetchListener "https://bsort.example" (fun _ => some ⟨204, ""⟩) [] getSorting).caches
      "bsort-v1" = none := by
  decide

/-- C3, amended: for every request whose path starts with an API prefix, whatever
its destination, when the network fetch succeeds the fetch listener returns the
network response unmodified; when the status of that response is 200 and the
request is a GET request it stores the response in the partition `bsort-v1`
under that request, and with any other status it stores nothing. -/
theorem C3_api_success_stored_and_returned (selfOrigin : String)
    (network : Request → Option Response) (caches : CacheStorage) (request : Request)
    (response : Response)
    (hapi : isApiRequest request = true)
    (hnet : network request = some response) :
    (fetchListener selfOrigin network caches request).response = some response ∧
    (fetchListener selfOrigin network caches request).fetches = [request] ∧
    (response.status = 200 → request.method = "GET" →
      (fetchListener selfOrigin network caches request).puts
        = [{ cacheName := "bsort-v1", request := request, response := response }] ∧
      ∃ c, cachesLookup (fetchListener selfOrigin network caches request).caches "bsort-v1"
          = some c ∧ cacheMatch c request = some response) ∧
    (response.status ≠ 200 →
      (fetchListener selfOrigin network caches request).puts = [] ∧
      (fetchListener selfOrigin network caches request).caches = caches) := by
  unfold fetchListener
  simp only [hapi, if_true, hnet]
  by_cases hs : response.status = 200
  · simp only [hs, if_true, true_and, ne_eq, not_true_eq_false, false_implies, and_true,
      true_implies]
    exact fun hget => ⟨rfl, cachesPut_stored caches CACHE_NAME request response hget⟩
  · simp [hs]

/-- C3, amended, at a read of an API path answered with status 200: the response is
returned and replaces the older entry of `bsort-v1`. -/
theorem C3_api_success_witness :
    (fetchListener "https://bsort.example" (fun _ => some ⟨200, "bags"⟩)
        [("bsort-v1", [(getSorting, ⟨200, "old bags"⟩)])] getSorting).response
      = some ⟨200, "bags"⟩ ∧
    (fetchListener "https://bsort.example" (fun _ => some ⟨200, "bags"⟩)
        [("bsort-v1", [(getSorting, ⟨200, "old bags"⟩)])] getSorting).caches
      = [("bsort-v1", [(getSorting, ⟨200, "bags"⟩)])] := by
  have h := C3_api_success_stored_and_returned "https://bsort.example"
    (fun _ => some ⟨200, "bags"⟩) [("bsort-v1", [(getSorting, ⟨200, "old bags"⟩)])]
    getSorting ⟨200, "bags"⟩ (by decide) rfl
  exact ⟨h.1, by decide⟩

/-- C4: for every request whose path starts with an API prefix, when the network
fetch fails the result of the fetch listener is the match of the request in the
cache storage: a response is returned exactly when some partition holds an entry
matching the request, every response returned is stored under a request that
matches this one, and the storage is left as it was. -/
theorem C4_api_failure_falls_back_to_cache (selfOrigin : String)
    (network : Request → Option Response) (caches : CacheStorage) (request : Request)
    (hapi : isApiRequest request = true)
    (hnet : network request = none) :
    (fetchListener selfOrigin network caches request).response = cachesMatch caches request ∧
    ((∃ p ∈ caches, ∃ e ∈ p.2, requestMatches e.1 request = true) →
      (fetchListener selfOrigin network caches request).response.isSome = true) ∧
    ((∀ p ∈ caches, ∀ e ∈ p.2, requestMatches e.1 request = false) →
      (fetchListener selfOrigin network caches request).response = none) ∧
    (∀ response, (fetchListener selfOrigin network caches request).response = some response →
      ∃ p ∈ caches, ∃ e ∈ p.2,
        e.1.url = request.url ∧ e.1.method = request.method ∧ e.2 = response) ∧
    (fetchListener selfOrigin network caches request).caches = caches ∧
    (fetchListener selfOrigin network caches request).puts = [] := by
  have hr : (fetchListener selfOrigin network caches request)
      = { response := cachesMatch caches request, caches := caches,
          fetches := [request], puts := [] } := by
    unfold fetchListener
    simp [hapi, hnet]
  rw [hr]
  refine ⟨rfl, ?_, ?_, ?_, rfl, rfl⟩
  · intro h
    exact cachesMatch_isSome_of_mem h
  · intro h
    cases hm : cachesMatch caches request with
    | none => rfl
    | some r =>
      obtain ⟨p, hp, e, he, hmatch, _⟩ := cachesMatch_mem hm
      rw [h p hp e he] at hmatch
      exact absurd hmatch (by decide)
  · intro response h
    obtain ⟨p, hp, e, he, hmatch, hresp⟩ := cachesMatch_mem h
    refine ⟨p, hp, e, he, ?_, ?_, hresp⟩
    · simp only [requestMatches, Bool.and_eq_true, decide_eq_true_eq] at hmatch
      exact hmatch.1
    · simp only [requestMatches, Bool.and_eq_true, decide_eq_true_eq] at hmatch
      exact hmatch.2

/-- C4 at a read of an API path with the network down: the entry stored under the
request is returned, not the one of another request, and nothing when none is stored. -/
theorem C4_api_failure_witness :
    (fetchListener "https://bsort.example" (fun _ => none)
        [("bsort-static-v1", [(stylesheet, ⟨200, "css"⟩)]),
         ("bsort-v1", [(aboutPage, ⟨200, "about"⟩), (getSorting, ⟨200, "bags"⟩)])]
        getSorting).response = some ⟨200, "bags"⟩ ∧
    (fetchListener "https://bsort.example" (fun _ => none)
        [("bsort-static-v1", [(stylesheet, ⟨200, "css"⟩)])] getSorting).response = none := by
  have h1 := C4_api_failure_falls_back_to_cache "https://bsort.example" (fun _ => none)
    [("bsort-static-v1", [(stylesheet, ⟨200, "css"⟩)]),
     ("bsort-v1", [(aboutPage, ⟨200, "about"⟩), (getSorting, ⟨200, "bags"⟩)])]
    getSorting (by decide) rfl
  have h2 := C4_api_failure_falls_back_to_cache "https://bsort.example" (fun _ => none)
    [("bsort-static-v1", [(stylesheet, ⟨200, "css"⟩)])] getSorting (by decide) rfl
  exact ⟨h1.1.trans (by decide), h2.2.2.1 (by decide)⟩

/-- C6: the jQuery CDN URL is an entry of the manifest and its path starts with no
API prefix, yet a request for it with an empty destination is handled
network-first: its path alone is compared with the manifest and is no entry,
a cached match is passed over for the network response, and the response is
stored in `bsort-v1`, not in `bsort-static-v1`. The same URL requested as a
script is served from the cache without a fetch. -/
theorem C6_cdn_entry_handled_network_first :
    urlInManifest "https://bsort.example" jqueryByFetch = true ∧
    isApiRequest jqueryByFetch = false ∧
    cachesMatch [("bsort-static-v1", [(jqueryByFetch, ⟨200, "stored"⟩)])] jqueryByFetch
      = some ⟨200, "stored"⟩ ∧
    (fetchListener "https://bsort.example" (fun _ => some ⟨200, "fresh"⟩)
        [("bsort-static-v1", [(jqueryByFetch, ⟨200, "stored"⟩)])] jqueryByFetch).fetches
      = [jqueryByFetch] ∧
    (fetchListener "https://bsort.example" (fun _ => some ⟨200, "fresh"⟩)
        [("bsort-static-v1", [(jqueryByFetch, ⟨200, "stored"⟩)])] jqueryByFetch).response
      = some ⟨200, "fresh"⟩ ∧
    includes STATIC_FILES jqueryByFetch.url.pathname = false ∧
    (fetchListener "https://bsort.example" (fun _ => some ⟨200, "fresh"⟩) []
        jqueryByFetch).puts
      = [{ cacheName := "bsort-v1", request := jqueryByFetch, response := ⟨200, "fresh"⟩ }] ∧
    (fetchListener "https://bsort.example" (fun _ => some ⟨200, "fresh"⟩) []
        jqueryByFetch).caches
      = [("bsort-v1", [(jqueryByFetch, ⟨200, "fresh"⟩)])] ∧
    (fetchListener "https://bsort.example" (fun _ => some ⟨200, "fresh"⟩)
        [("bsort-static-v1", [(jqueryByFetch, ⟨200, "stored"⟩)])]
        { jqueryByFetch with destination := "script" })
      = { response := some ⟨200, "stored"⟩,
          caches := [("bsort-static-v1", [(jqueryByFetch, ⟨200, "stored"⟩)])],
          fetches := [], puts := [] } := by
  decide

/-- What the path test of line 95 gives: for every request whose URL path is itself
an entry of `STATIC_FILES` and starts with no API prefix, the fetch listener applies the
cache-first strategy whatever the destination: it returns the cached match
without a network fetch if there is one, and otherwise fetches from the network,
returns the network response, and stores it in `bsort-static-v1` under the
request when its status is 200 and the request is a GET request (nothing is
stored with another status or when the fetch fails). -/
theorem fetchListener_manifest_path_cache_first (selfOrigin : String)
    (network : Request → Option Response) (caches : CacheStorage) (request : Request)
    (hpath : request.url.pathname ∈ STATIC_FILES)
    (hapi : isApiRequest request = false) :
    (∀ stored, cachesMatch caches request = some stored →
      (fetchListener selfOrigin network caches request)
        = { response := some stored, caches := caches, fetches := [], puts := [] }) ∧
    (cachesMatch caches request = none →
      (fetchListener selfOrigin network caches request).response = network request ∧
      (fetchListener selfOrigin network caches request).fetches = [request] ∧
      (∀ response, network request = some response → response.status = 200 →
        request.method = "GET" →
        (fetchListener selfOrigin network caches request).puts
          = [{ cacheName := "bsort-static-v1", request := request, response := response }] ∧
        ∃ c, cachesLookup (fetchListener selfOrigin network caches request).caches
            "bsort-static-v1" = some c ∧ cacheMatch c request = some response) ∧
      (∀ response, network request = some response → response.status ≠ 200 →
        (fetchListener selfOrigin network caches request).puts = [] ∧
        (fetchListener selfOrigin network caches request).caches = caches) ∧
      (network request = none →
        (fetchListener selfOrigin network caches request).puts = [] ∧
        (fetchListener selfOrigin network caches request).caches = caches)) := by
  have hinc : includes STATIC_FILES request.url.pathname = true := by
    unfold includes
    simpa using hpath
  have hstatic : isStaticRequest request = true := by
    unfold isStaticRequest
    rw [hinc, Bool.or_true]
  refine ⟨?_, ?_⟩
  · intro stored hcached
    unfold fetchListener
    simp [hapi, hstatic, hcached]
  · intro hmiss
    cases hnet : network request with
    | none =>
      unfold fetchListener
      simp [hapi, hstatic, hmiss, hnet]
    | some response =>
      by_cases hs : response.status = 200
      · have hr : fetchListener selfOrigin network caches request
            = { response := some response,
                caches := cachesPut caches STATIC_CACHE_NAME request response,
                fetches := [request],
                puts := [{ cacheName := STATIC_CACHE_NAME, request := request,
                           response := response }] } := by
          unfold fetchListener
          simp [hapi, hstatic, hmiss, hnet, hs]
        rw [hr]
        refine ⟨rfl, rfl, ?_, ?_, ?_⟩
        · intro r hr2 _ hget
          cases hr2
          exact ⟨rfl, cachesPut_stored caches STATIC_CACHE_NAME request response hget⟩
        · intro r hr2 hne
          cases hr2
          exact absurd hs hne
        · intro h
          cases h
      · have hr : fetchListener selfOrigin network caches request
            = { response := some response, caches := caches, fetches := [request],
                puts := [] } := by
          unfold fetchListener
          simp [hapi, hstatic, hmiss, hnet, hs]
        rw [hr]
        refine ⟨rfl, rfl, ?_, ?_, ?_⟩
        · intro r hr2 h200 _
          cases hr2
          exact absurd h200 hs
        · intro r _ _
          exact ⟨rfl, rfl⟩
        · intro h
          cases h

/-- The manifest file (destination `manifest`) is served from the cache when stored,
and fetched and stored in `bsort-static-v1` when not. -/
theorem fetchListener_manifest_path_example :
    (fetchListener "https://bsort.example" (fun _ => some ⟨200, "fresh"⟩)
        [("bsort-static-v1", [(manifestFile, ⟨200, "stored"⟩)])] manifestFile)
      = { response := some ⟨200, "stored"⟩,
          caches := [("bsort-static-v1", [(manifestFile, ⟨200, "stored"⟩)])],
          fetches := [], puts := [] } ∧
    (fetchListener "https://bsort.example" (fun _ => some ⟨200, "fresh"⟩) []
        manifestFile).caches = [("bsort-static-v1", [(manifestFile, ⟨200, "fresh"⟩)])] := by
  have h := fetchListener_manifest_path_cache_first "https://bsort.example"
    (fun _ => some ⟨200, "fresh"⟩) [("bsort-static-v1", [(manifestFile, ⟨200, "stored"⟩)])]
    manifestFile (by decide) (by decide)
  exact ⟨h.1 ⟨200, "stored"⟩ (by decide), by decide⟩

/-- C7: for every request handled by the generic network-first strategy (its path
starts with no API prefix, its destination is not style, script, font or image,
its path is no manifest entry), when the network fetch fails the result is the
cached match for the request if there is one; otherwise, for a request of
destination `document`, it is the cached match for the root document `/` of
the worker's origin; otherwise there is no response. The storage is unchanged. -/
theorem C7_generic_failure_fallback (selfOrigin : String)
    (network : Request → Option Response) (caches : CacheStorage) (request : Request)
    (hapi : isApiRequest request = false)
    (hdest : request.destination ≠ "style" ∧ request.destination ≠ "script" ∧
      request.destination ≠ "font" ∧ request.destination ≠ "image")
    (hpath : request.url.pathname ∉ STATIC_FILES)
    (hnet : network request = none) :
    (∀ stored, cachesMatch caches request = some stored →
      (fetchListener selfOrigin network caches request).response = some stored) ∧
    (cachesMatch caches request = none → request.destination = "document" →
      (fetchListener selfOrigin network caches request).response
        = cachesMatch caches
            { url := { origin := selfOrigin, pathname := "/", search := "" },
              method := "GET", destination := "" }) ∧
    (cachesMatch caches request = none → request.destination ≠ "document" →
      (fetchListener selfOrigin network caches request).response = none) ∧
    (fetchListener selfOrigin network caches request).caches = caches ∧
    (fetchListener selfOrigin network caches request).puts = [] := by
  have hinc : includes STATIC_FILES request.url.pathname = false := by
    unfold includes
    simpa using hpath
  have hstatic : isStaticRequest request = false := by
    unfold isStaticRequest isAssetDestination
    simp [hdest.1, hdest.2.1, hdest.2.2.1, hdest.2.2.2, hinc]
  cases hm : cachesMatch caches request with
  | some stored =>
    unfold fetchListener
    simp [hapi, hstatic, hnet, hm]
  | none =>
    by_cases hd : request.destination = "document"
    · unfold fetchListener
      simp [hapi, hstatic, hnet, hm, hd, rootRequest]
    · unfold fetchListener
      simp [hapi, hstatic, hnet, hm, hd]

/-- C7 at a page navigation with the network down: the cached root document when the
page is not cached, the cached page when it is, and nothing for a request that is
no navigation. -/
theorem C7_generic_failure_witness :
    (fetchListener "https://bsort.example" (fun _ => none)
        [("bsort-static-v1", [(rootRequest "https://bsort.example", ⟨200, "home"⟩)])]
        aboutPage).response = some ⟨200, "home"⟩ ∧
    (fetchListener "https://bsort.example" (fun _ => none)
        [("bsort-v1", [(aboutPage, ⟨200, "about"⟩)])] aboutPage).response
      = some ⟨200, "about"⟩ ∧
    (fetchListener "https://bsort.example" (fun _ => none)
        [("bsort-static-v1", [(rootRequest "https://bsort.example", ⟨200, "home"⟩)])]
        { aboutPage with destination := "" }).response = none := by
  have h1 := C7_generic_failure_fallback "https://bsort.example" (fun _ => none)
    [("bsort-static-v1", [(rootRequest "https://bsort.example", ⟨200, "home"⟩)])]
    aboutPage (by decide) (by decide) (by decide) rfl
  have h2 := C7_generic_failure_fallback "https://bsort.example" (fun _ => none)
    [("bsort-v1", [(aboutPage, ⟨200, "about"⟩)])] aboutPage
    (by decide) (by decide) (by decide) rfl
  have h3 := C7_generic_failure_fallback "https://bsort.example" (fun _ => none)
    [("bsort-static-v1", [(rootRequest "https://bsort.example", ⟨200, "home"⟩)])]
    { aboutPage with destination := "" } (by decide) (by decide) (by decide) rfl
  exact ⟨(h1.2.1 (by decide) (by decide)).trans (by decide),
    h2.1 ⟨200, "about"⟩ (by decide),
    h3.2.2.1 (by decide) (by decide)⟩

/-! ## The install-prompt controller -/

theorem triggerVisible_hideInstallButton (self : PWAInstaller) :
    triggerVisible (hideInstallButton self) = false := by
  unfold hideInstallButton triggerVisible
  cases h : self.installButton with
  | none => simp [h]
  | some b => simp

theorem deferredPrompt_showInstallButton (env : Env) (self : PWAInstaller) :
    (showInstallButton env self).deferredPrompt = self.deferredPrompt := by
  unfold showInstallButton
  cases self.installButton with
  | none => rfl
  | some b => by_cases h : isInstalled env = true <;> simp [h]

theorem installButton_showInstallSuccessMessage (env : Env) (self : PWAInstaller) :
    (showInstallSuccessMessage env self).installButton = self.installButton ∧
    (showInstallSuccessMessage env self).deferredPrompt = self.deferredPrompt := by
  unfold showInstallSuccessMessage
  cases env.hasContainer <;> simp

theorem triggerVisible_onAppInstalled (env : Env) (self : PWAInstaller) :
    triggerVisible (onAppInstalled env self) = false := by
  have hs := installButton_showInstallSuccessMessage env
    { hideInstallButton self with deferredPrompt := none }
  unfold onAppInstalled triggerVisible
  rw [hs.1]
  have := triggerVisible_hideInstallButton self
  unfold triggerVisible at this
  exact this

/-- A trigger activation whose choice settles before any other event is the method
`handleInstallClick` run to its end. -/
theorem click_then_userChoice (env env2 : Env) (outcome : Outcome) (self : PWAInstaller)
    (h : self.suspended = 0) :
    (self.step (env, PageEvent.click)).step (env2, PageEvent.userChoice outcome)
      = handleInstallClick outcome self := by
  show PWAInstaller.step (handleInstallClickStart self) (env2, PageEvent.userChoice outcome) = _
  unfold PWAInstaller.step handleInstallClick handleInstallClickStart
  cases hd : self.deferredPrompt with
  | none => simp [h]
  | some e => simp [hd, handleInstallClickStart]

/-- The method `hideInstallButton` keeps the button and sets its display style. -/
theorem installButton_hideInstallButton (self : PWAInstaller) :
    (hideInstallButton self).installButton
      = self.installButton.map (fun b => { b with display := "none" }) := by
  unfold hideInstallButton
  cases h : self.installButton <;> simp [h]

/-- C8: for every state of the controller and every page environment, handling
the app-installed event yields a state in which no signal is retained and the
trigger is hidden: the button the controller held is kept, the same in every
other property, with its display style set to `none`. -/
theorem C8_appinstalled_clears_and_hides (env : Env) (self : PWAInstaller) :
    (onAppInstalled env self).deferredPrompt = none ∧
    triggerVisible (onAppInstalled env self) = false ∧
    (∀ b, (onAppInstalled env self).installButton = some b → b.display = "none") ∧
    (onAppInstalled env self).installButton
      = self.installButton.map (fun b => { b with display := "none" }) ∧
    ((onAppInstalled env self).installButton.isSome = self.installButton.isSome) := by
  have hs := installButton_showInstallSuccessMessage env
    { hideInstallButton self with deferredPrompt := none }
  have hv : triggerVisible (onAppInstalled env self) = false :=
    triggerVisible_onAppInstalled env self
  have hb : (onAppInstalled env self).installButton
      = self.installButton.map (fun b => { b with display := "none" }) := by
    unfold onAppInstalled
    rw [hs.1]
    exact installButton_hideInstallButton self
  refine ⟨?_, hv, ?_, hb, ?_⟩
  · unfold onAppInstalled
    rw [hs.2]
  · intro b hb2
    unfold triggerVisible at hv
    rw [hb2] at hv
    simpa using hv
  · rw [hb]
    cases self.installButton <;> rfl

theorem visibleImpliesRetained_new (env : Env) : visibleImpliesRetained (newPWAInstaller env) := by
  intro h
  unfold newPWAInstaller init createInstallButton triggerVisible at h
  simp at h

theorem visibleImpliesRetained_step (self : PWAInstaller) (ev : Env × PageEvent)
    (h : visibleImpliesRetained self) : visibleImpliesRetained (self.step ev) := by
  obtain ⟨env, e⟩ := ev
  unfold PWAInstaller.step
  cases e with
  | beforeinstallprompt n =>
    intro _
    show signalRetained (onBeforeInstallPrompt env n self) = true
    unfold signalRetained onBeforeInstallPrompt
    rw [deferredPrompt_showInstallButton]
    rfl
  | appinstalled =>
    intro hv
    have := triggerVisible_onAppInstalled env self
    rw [this] at hv
    exact absurd hv (by decide)
  | click =>
    show visibleImpliesRetained (handleInstallClickStart self)
    unfold handleInstallClickStart
    cases hd : self.deferredPrompt with
    | none => exact h
    | some n =>
      intro _
      simp [signalRetained, hd]
  | userChoice outcome =>
    show visibleImpliesRetained (if self.suspended = 0 then self
      else handleInstallClickResume outcome self)
    split_ifs
    · exact h
    · intro hv
      unfold handleInstallClickResume at hv
      rw [triggerVisible_hideInstallButton] at hv
      exact absurd hv (by decide)

theorem visibleImpliesRetained_run (evs : List (Env × PageEvent)) (self : PWAInstaller)
    (h : visibleImpliesRetained self) : visibleImpliesRetained (self.run evs) := by
  induction evs generalizing self with
  | nil => exact h
  | cons ev evs ih =>
    exact ih (self.step ev) (visibleImpliesRetained_step self ev h)

/-- C10: in every state reached from the initial state of the controller by a
sequence of installability-offered events, app-installed events, trigger
activations and settled user choices (accepted or dismissed), in any page
environment, the trigger is visible only if a deferred install signal is
retained; and when the app is detected as installed a state is reached in which
a signal is retained while the trigger is hidden. -/
theorem C10_visible_only_if_retained :
    (∀ (env : Env) (evs : List (Env × PageEvent)),
      triggerVisible ((newPWAInstaller env).run evs) = true →
      signalRetained ((newPWAInstaller env).run evs) = true) ∧
    (∀ (env : Env) (evs : List (Env × PageEvent)) (e : Nat), isInstalled env = true →
      signalRetained (((newPWAInstaller env).run evs).step
        (env, PageEvent.beforeinstallprompt e)) = true ∧
      triggerVisible (((newPWAInstaller env).run evs).step
        (env, PageEvent.beforeinstallprompt e))
        = triggerVisible ((newPWAInstaller env).run evs)) ∧
    (∀ (env : Env) (e : Nat), isInstalled env = true →
      signalRetained ((newPWAInstaller env).run [(env, PageEvent.beforeinstallprompt e)]) = true ∧
      triggerVisible ((newPWAInstaller env).run [(env, PageEvent.beforeinstallprompt e)])
        = false) := by
  refine ⟨?_, ?_, ?_⟩
  · intro env evs
    exact visibleImpliesRetained_run evs _ (visibleImpliesRetained_new env)
  · intro env evs e hinst
    constructor
    · show signalRetained (onBeforeInstallPrompt env e _) = true
      unfold signalRetained onBeforeInstallPrompt
      rw [deferredPrompt_showInstallButton]
      rfl
    · show triggerVisible (onBeforeInstallPrompt env e _) = _
      unfold onBeforeInstallPrompt showInstallButton triggerVisible
      cases hb : ((newPWAInstaller env).run evs).installButton with
      | none => simp [hb]
      | some b => simp [hb, hinst]
  · intro env e hinst
    constructor
    · show signalRetained (onBeforeInstallPrompt env e (newPWAInstaller env)) = true
      unfold signalRetained onBeforeInstallPrompt
      rw [deferredPrompt_showInstallButton]
      rfl
    · show triggerVisible (onBeforeInstallPrompt env e (newPWAInstaller env)) = false
      unfold onBeforeInstallPrompt showInstallButton newPWAInstaller init createInstallButton
        triggerVisible
      simp [hinst]

/-- C10 at one installability offer: in a browser tab the trigger is visible and the
signal retained, in the installed app the signal is retained and the trigger hidden. -/
theorem C10_visible_only_if_retained_witness :
    triggerVisible ((newPWAInstaller browserTab).run
      [(browserTab, PageEvent.beforeinstallprompt 7)]) = true ∧
    signalRetained ((newPWAInstaller browserTab).run
      [(browserTab, PageEvent.beforeinstallprompt 7)]) = true ∧
    signalRetained ((newPWAInstaller standaloneApp).run
      [(standaloneApp, PageEvent.beforeinstallprompt 7)]) = true ∧
    triggerVisible ((newPWAInstaller standaloneApp).run
      [(standaloneApp, PageEvent.beforeinstallprompt 7)]) = false :=
  ⟨by decide,
   C10_visible_only_if_retained.1 browserTab [(browserTab, PageEvent.beforeinstallprompt 7)]
     (by decide),
   (C10_visible_only_if_retained.2.2 standaloneApp 7 (by decide)).1,
   (C10_visible_only_if_retained.2.2 standaloneApp 7 (by decide)).2⟩

/-! ## The connectivity listeners -/

theorem countP_insertAfterFirst (q p : Element → Bool) (el : Element) (doc : Document) :
    (insertAfterFirst p el doc).countP q
      = doc.countP q + (if (doc.find? p).isSome && q el then 1 else 0) := by
  induction doc with
  | nil => simp [insertAfterFirst]
  | cons x xs ih =>
    unfold insertAfterFirst
    by_cases hp : p x = true
    · simp only [hp, if_true, List.countP_cons, List.find?_cons_of_pos, Option.isSome_some,
        Bool.true_and]
      by_cases hq : q el = true <;> by_cases hx : q x = true <;> simp [hq, hx]
    · have hp2 : p x = false := by simpa using hp
      simp only [hp2, Bool.false_eq_true, if_false, List.countP_cons, ih]
      rw [List.find?_cons_of_neg _ hp]
      omega

theorem countP_eraseP_self (q : Element → Bool) (doc : Document) :
    (doc.eraseP q).countP q = doc.countP q - 1 := by
  induction doc with
  | nil => simp
  | cons x xs ih =>
    by_cases hx : q x = true
    · simp [List.eraseP_cons, hx]
    · have hx2 : q x = false := by simpa using hx
      simp [List.eraseP_cons, hx2, ih]

theorem offlineBanners_onOnline (doc : Document) :
    offlineBanners (onOnline doc) = offlineBanners doc - 1 := by
  unfold onOnline offlineBanners
  cases hf : doc.find? isOfflineIndicator with
  | none =>
    have h0 : doc.countP isOfflineIndicator = 0 := by
      rw [List.countP_eq_zero]
      intro a ha
      rw [List.find?_eq_none] at hf
      exact hf a ha
    simp [h0]
  | some el => exact countP_eraseP_self isOfflineIndicator doc

theorem onOffline_of_banner (doc : Document) (h : 0 < offlineBanners doc) :
    onOffline doc = doc := by
  have hf : (doc.find? isOfflineIndicator).isSome = true := by
    rw [List.find?_isSome]
    exact List.countP_pos_iff.mp h
  unfold onOffline
  simp [hf]

theorem offlineBanners_onOffline_le (doc : Document) (h : offlineBanners doc ≤ 1) :
    offlineBanners (onOffline doc) ≤ 1 := by
  by_cases hpos : 0 < offlineBanners doc
  · rw [onOffline_of_banner doc hpos]
    exact h
  · have h0 : offlineBanners doc = 0 := by omega
    unfold onOffline
    split_ifs
    · unfold offlineBanners at h0 ⊢
      rw [countP_insertAfterFirst, h0]
      split_ifs <;> omega
    · exact h

theorem connectivityRun_append (doc : Document) (evs : List ConnectivityEvent)
    (ev : ConnectivityEvent) :
    connectivityRun doc (evs ++ [ev]) = connectivityStep (connectivityRun doc evs) ev := by
  unfold connectivityRun
  rw [List.foldl_append]
  rfl

theorem mem_insertAfterFirst (p : Element → Bool) (el x : Element) (doc : Document)
    (h : x ∈ insertAfterFirst p el doc) : x ∈ doc ∨ x = el := by
  induction doc with
  | nil => simp [insertAfterFirst] at h
  | cons y ys ih =>
    unfold insertAfterFirst at h
    by_cases hp : p y = true
    · simp only [hp, if_true, List.mem_cons] at h
      rcases h with h | h | h
      · exact Or.inl (h ▸ List.mem_cons_self _ _)
      · exact Or.inr h
      · exact Or.inl (List.mem_cons_of_mem _ h)
    · have hp2 : p y = false := by simpa using hp
      simp only [hp2, Bool.false_eq_true, if_false, List.mem_cons] at h
      rcases h with h | h
      · exact Or.inl (h ▸ List.mem_cons_self _ _)
      · rcases ih h with h2 | h2
        · exact Or.inl (List.mem_cons_of_mem _ h2)
        · exact Or.inr h2

theorem find?_insertAfterFirst (p : Element → Bool) (el : Element) (doc : Document) :
    ((insertAfterFirst p el doc).find? p).isSome = (doc.find? p).isSome := by
  induction doc with
  | nil => simp [insertAfterFirst]
  | cons y ys ih =>
    unfold insertAfterFirst
    by_cases hp : p y = true
    · simp [hp]
    · have hp2 : p y = false := by simpa using hp
      simp only [hp2, Bool.false_eq_true, if_false]
      rw [List.find?_cons_of_neg _ hp, List.find?_cons_of_neg _ hp]
      exact ih

theorem connectivityInv_onOnline (doc : Document) (h : connectivityInv doc) :
    connectivityInv (onOnline doc) := by
  obtain ⟨htop, hsep, hle⟩ := h
  refine ⟨?_, ?_, ?_⟩
  · unfold onOnline
    cases hf : doc.find? isOfflineIndicator with
    | none => exact htop
    | some el =>
      show ((doc.eraseP isOfflineIndicator).find? isTopbar).isSome = true
      rw [List.find?_isSome] at htop ⊢
      obtain ⟨t, ht, hpt⟩ := htop
      have hnot : ¬ (isOfflineIndicator t = true) := by
        intro hq
        rw [hsep t ht hq] at hpt
        exact absurd hpt (by decide)
      exact ⟨t, (List.mem_eraseP_of_neg hnot).mpr ht, hpt⟩
  · intro el hel
    have hmem : el ∈ doc := by
      unfold onOnline at hel
      cases hf : doc.find? isOfflineIndicator with
      | none => rw [hf] at hel; exact hel
      | some e => rw [hf] at hel; exact List.mem_of_mem_eraseP hel
    exact hsep el hmem
  · rw [offlineBanners_onOnline]
    omega

theorem connectivityInv_onOffline (doc : Document) (h : connectivityInv doc) :
    connectivityInv (onOffline doc) := by
  obtain ⟨htop, hsep, hle⟩ := h
  refine ⟨?_, ?_, offlineBanners_onOffline_le doc hle⟩
  · unfold onOffline
    split_ifs
    · rw [find?_insertAfterFirst]
      exact htop
    · exact htop
  · intro el hel
    unfold onOffline at hel
    split_ifs at hel
    · rcases mem_insertAfterFirst _ _ _ _ hel with h1 | h1
      · exact hsep el h1
      · intro _
        rw [h1]
        decide
    · exact hsep el hel

theorem connectivityInv_run (evs : List ConnectivityEvent) (doc : Document)
    (h : connectivityInv doc) : connectivityInv (connectivityRun doc evs) := by
  induction evs generalizing doc with
  | nil => exact h
  | cons ev evs ih =>
    apply ih
    cases ev with
    | online => exact connectivityInv_onOnline doc h
    | offline => exact connectivityInv_onOffline doc h

theorem offlineBanners_onOffline_eq (doc : Document) (h : connectivityInv doc) :
    offlineBanners (onOffline doc) = 1 := by
  obtain ⟨htop, _, hle⟩ := h
  by_cases hpos : 0 < offlineBanners doc
  · rw [onOffline_of_banner doc hpos]
    omega
  · have h0 : offlineBanners doc = 0 := by omega
    have hf : (doc.find? isOfflineIndicator).isSome = false := by
      cases hq : (doc.find? isOfflineIndicator).isSome with
      | false => rfl
      | true =>
        rw [List.find?_isSome] at hq
        exact absurd (List.countP_pos_iff.mpr hq) hpos
    have hel : isOfflineIndicator offlineIndicatorElement = true := by decide
    unfold onOffline
    rw [htop, hf]
    unfold offlineBanners at h0 ⊢
    simp only [Bool.not_false, Bool.and_self, if_true]
    rw [countP_insertAfterFirst, h0, htop, hel]
    rfl

/-- C9: starting from a page with a topbar and no offline banner, after every
finite sequence of offline and online events the page holds at most one offline
banner: none when the last event handled was online, exactly one when it was
offline; and handling offline on a page that holds a banner changes nothing. -/
theorem C9_at_most_one_offline_banner (doc : Document)
    (htopbar : (doc.find? isTopbar).isSome = true)
    (hnone : offlineBanners doc = 0) (evs : List ConnectivityEvent) :
    offlineBanners (connectivityRun doc evs) ≤ 1 ∧
    (evs.getLast? = some ConnectivityEvent.online →
      offlineBanners (connectivityRun doc evs) = 0) ∧
    (evs.getLast? = some ConnectivityEvent.offline →
      offlineBanners (connectivityRun doc evs) = 1) ∧
    (0 < offlineBanners (connectivityRun doc evs) →
      onOffline (connectivityRun doc evs) = connectivityRun doc evs) := by
  have hinv0 : connectivityInv doc := by
    refine ⟨htopbar, ?_, by omega⟩
    intro el hel hq
    have : 0 < offlineBanners doc := List.countP_pos_iff.mpr ⟨el, hel, hq⟩
    omega
  have hinv : ∀ evs, connectivityInv (connectivityRun doc evs) :=
    fun evs => connectivityInv_run evs doc hinv0
  have hsplit : ∀ ev, evs.getLast? = some ev →
      ∃ front, connectivityRun doc evs = connectivityStep (connectivityRun doc front) ev := by
    intro ev hlast
    rcases List.eq_nil_or_concat evs with hnil | ⟨front, last, hcat⟩
    · rw [hnil] at hlast
      simp at hlast
    · rw [List.concat_eq_append] at hcat
      rw [hcat, List.getLast?_append] at hlast
      have hlast2 : last = ev := by simpa [Option.or] using hlast
      exact ⟨front, by rw [hcat, connectivityRun_append, hlast2]⟩
  refine ⟨(hinv evs).2.2, ?_, ?_, onOffline_of_banner _⟩
  · intro hlast
    obtain ⟨front, hrun⟩ := hsplit _ hlast
    rw [hrun]
    show offlineBanners (onOnline _) = 0
    rw [offlineBanners_onOnline]
    have := (hinv front).2.2
    omega
  · intro hlast
    obtain ⟨front, hrun⟩ := hsplit _ hlast
    rw [hrun]
    exact offlineBanners_onOffline_eq _ (hinv front)

/-- C9 at a page with a topbar: two offline events leave one banner, and a following
online event leaves none. -/
theorem C9_at_most_one_offline_banner_witness :
    offlineBanners (connectivityRun samplePage
      [ConnectivityEvent.offline, ConnectivityEvent.offline]) = 1 ∧
    offlineBanners (connectivityRun samplePage
      [ConnectivityEvent.offline, ConnectivityEvent.offline, ConnectivityEvent.online]) = 0 :=
  ⟨(C9_at_most_one_offline_banner samplePage (by decide) (by decide)
      [ConnectivityEvent.offline, ConnectivityEvent.offline]).2.2.1 (by decide),
   (C9_at_most_one_offline_banner samplePage (by decide) (by decide)
      [ConnectivityEvent.offline, ConnectivityEvent.offline, ConnectivityEvent.online]).2.1
      (by decide)⟩

end BSort
